import Mathlib

/-!
Verification of the toolkit plugin-registration mechanism
(`src/core/tools/toolkit.py`) and the example plugin
(`src/app/tools/serpapi.py`).

Python values are shallowly embedded as `PyVal`; dictionaries are
association lists in insertion order, matching the ordered dicts of Python.
Fallible Python code (raising) is embedded with `Except`/`Option`.
-/

/-- A Python value, as far as the toolkit manipulates them:
strings, ints, bools, None, lists and string-keyed dicts. -/
inductive PyVal : Type where
  | none : PyVal
  | bool : Bool → PyVal
  | int : Int → PyVal
  | str : String → PyVal
  | list : List PyVal → PyVal
  | dict : List (String × PyVal) → PyVal
deriving Repr

/-- A Python dict with string keys, in insertion order. -/
abbrev PyDict := List (String × PyVal)

/-- Association-list lookup: `d[k]` as an `Option` (Python raises `KeyError`
on a missing key; `d.get(k)` returns a default). -/
def lookupStr {α : Type} : List (String × α) → String → Option α
  | [], _ => Option.none
  | e :: d, k => if e.1 = k then Option.some e.2 else lookupStr d k

/-- Association-list update `d[k] = v`: replaces the value in place when the
key is present (Python dicts keep insertion order), appends otherwise. -/
def setStr {α : Type} (d : List (String × α)) (k : String) (v : α) :
    List (String × α) :=
  if (lookupStr d k).isSome then
    d.map (fun e => if e.1 = k then (k, v) else e)
  else d ++ [(k, v)]

/-- The form `d.get(k, dflt)` of Python, on a dict. -/
def PyDict.get (d : PyDict) (k : String) (dflt : PyVal) : PyVal :=
  (lookupStr d k).getD dflt

/-- The form `v.get(k, dflt)` of Python, when `v` is an arbitrary value: succeeds only
when `v` is a dict, otherwise Python raises `AttributeError` (`Option.none`
here). -/
def PyVal.get (v : PyVal) (k : String) (dflt : PyVal) : Option PyVal :=
  match v with
  | PyVal.dict es => Option.some (PyDict.get es k dflt)
  | _ => Option.none

/-- `_get_json_type_for_py_type` from `src/core/tools/toolkit.py`:
maps a declared Python type name to a coarse JSON-schema type category. -/
def _get_json_type_for_py_type (arg : String) : String :=
  if arg ∈ ["int", "float", "complex", "Decimal"] then "number"
  else if arg ∈ ["str", "string"] then "string"
  else if arg ∈ ["bool", "boolean"] then "boolean"
  else if arg ∈ ["NoneType", "None"] then "null"
  else if arg ∈ ["list", "tuple", "set", "frozenset"] then "array"
  else if arg ∈ ["dict", "mapping"] then "object"
  else "unknown"

example : _get_json_type_for_py_type "int" = "number" := by decide
example : _get_json_type_for_py_type "complex" = "number" := by decide
example : _get_json_type_for_py_type "any" = "unknown" := by decide

/-- One formal parameter of an operation, as seen by `inspect.signature`:
its name, the `__name__` of its type annotation when one is declared
(`Option.none` embeds `inspect.Parameter.empty`), and its declared default
value when one is declared (`Option.none` embeds `inspect.Parameter.empty`). -/
structure PyParam where
  name : String
  annot : Option String
  default : Option PyVal
deriving Repr

/-- The parameter descriptor appended to `args` in `tool_func`
(`src/core/tools/toolkit.py`, the dict literal inside the signature loop). -/
structure ParamDescriptor where
  name : String
  description : String
  optional : Bool
  default : PyVal
  type : String
deriving Repr

/-- The descriptor that the loop body of `tool_func` builds for one kept
parameter. `docParams` embeds `parse(inspect.getdoc(func)).params` as
(arg_name, description) pairs; the description is the first match by exact
name, defaulting to the empty string. `optional` is set iff a default is
declared; `default` carries the declared value or Python `None`; `type` maps
the name of the declared type (or the sentinel string when none is declared)
through `_get_json_type_for_py_type`. -/
def describeParam (docParams : List (String × String)) (p : PyParam) :
    ParamDescriptor :=
  { name := p.name
    description := ((docParams.find? (fun q => q.1 == p.name)).map
      (fun q => q.2)).getD ""
    optional := p.default.isSome
    default := p.default.getD PyVal.none
    type := _get_json_type_for_py_type (p.annot.getD "any") }

/-- The whole `args` list built by the loop of `tool_func` over
`sig.parameters.items()`: parameters named `self` or `_config` are skipped,
every other parameter yields its descriptor, in declaration order. -/
def describeParams (docParams : List (String × String))
    (params : List PyParam) : List ParamDescriptor :=
  params.filterMap (fun p =>
    if p.name == "self" || p.name == "_config" then Option.none
    else Option.some (describeParam docParams p))

example :
    describeParams [("query", "the search text")]
      [⟨"self", Option.none, Option.none⟩,
       ⟨"query", Option.some "str", Option.none⟩,
       ⟨"_config", Option.some "dict", Option.none⟩] =
    [{ name := "query", description := "the search text", optional := false,
       default := PyVal.none, type := "string" }] := by
  rfl

/-- The `kwargs` dict built by `tool_func` for an operation and stored in the
registry. Fields mirror the dict literal in `tool_func`
(`src/core/tools/toolkit.py`): note that `parameters` holds the stored
mapping, and `returns` is the fixed placeholder pair. -/
structure OpRecord where
  id : String
  title : Option String
  description : Option String
  parameters : List (String × ParamDescriptor)
  returns : String × String
  schema : Option PyVal
  enabled : Bool
  llm_tool : PyDict
deriving Repr

/-- The `kwargs` dict built by the `tool` class decorator and stored in the
registry, mirroring its dict literal in `src/core/tools/toolkit.py`. -/
structure ContainerRecord where
  id : String
  title : Option String
  description : Option String
  icon : Option String
  category : Option String
  functions : List (String × OpRecord)
  schema : Option PyVal
deriving Repr

/-- The process-wide `Toolkit.__tools` mapping, container name to record. -/
abbrev Registry := List (String × ContainerRecord)

/-- The `ValueError`s raised by `Toolkit.register`. -/
inductive RegError : Type where
  | unknownContainer : String → RegError
  | duplicateOperation : String → String → RegError
deriving Repr, DecidableEq

namespace Toolkit

/-- The branch of `Toolkit.register` taken when `tool_cls` is `None`
(reached from the `tool` class decorator): `cls.__tools[name] = kwargs`,
an unconditional insert-or-overwrite of a container record. -/
def register_container (tools : Registry) (name : String)
    (kwargs : ContainerRecord) : Registry :=
  setStr tools name kwargs

/-- The branch of `Toolkit.register` taken when `tool_cls` is supplied
(reached from `tool_func`): raises `ValueError` when `tool_cls` is not a
registered container, raises `ValueError` when `name` is already in its
`functions` dict, otherwise stores the operation record there. -/
def register_op (tools : Registry) (name : String) (kwargs : OpRecord)
    (tool_cls : String) : Except RegError Registry :=
  match lookupStr tools tool_cls with
  | Option.none => Except.error (RegError.unknownContainer tool_cls)
  | Option.some d =>
      if (lookupStr d.functions name).isSome then
        Except.error (RegError.duplicateOperation name tool_cls)
      else
        Except.ok (setStr tools tool_cls
          { d with functions := setStr d.functions name kwargs })

/-- `Toolkit.tool(_cls)` with `_func` omitted: `cls.__tools[_cls]`
(`Option.none` embeds the `KeyError`). -/
def tool_lookup (tools : Registry) (c : String) : Option ContainerRecord :=
  lookupStr tools c

/-- `Toolkit.tool(_cls, _func)` with `_func` supplied:
`cls.__tools[_cls]["functions"][_func]`. -/
def tool_lookup_fn (tools : Registry) (c f : String) : Option OpRecord :=
  (lookupStr tools c).bind (fun d => lookupStr d.functions f)

/-- The default configuration literal in `Toolkit.__init__`. -/
def default_configuration : PyDict :=
  [("config", PyVal.dict []), ("functions", PyVal.dict []),
   ("enable", PyVal.list [])]

/-- `Toolkit.__init__`: `self.configuration = configuration if configuration
else default`. The argument is falsy when it is Python `None` (embedded as
`Option.none`) or the empty dict; any other dict is stored unchanged. -/
def init (configuration : Option PyDict) : PyDict :=
  match configuration with
  | Option.none => default_configuration
  | Option.some d => if d.isEmpty then default_configuration else d

end Toolkit

/-- The form `a or b` of Python on optional strings: `None` and the empty string are
falsy. -/
def pyOrStr (a b : Option String) : Option String :=
  match a with
  | Option.none => b
  | Option.some s => if s == "" then b else Option.some s

/-- The `tool` class decorator (`src/core/tools/toolkit.py`): builds the
container record (`description` falling back to the class docstring,
`functions` initialised empty, `schema` the rendered Pydantic schema or
`None`) and registers it under the class name. It returns the class
unchanged, so only the registry effect is modelled; `schema` is embedded as
the already-rendered `model_json_schema()` value. -/
def tool (schema : Option PyVal) (title description icon category : Option String)
    (clsName : String) (clsDoc : Option String) (tools : Registry) : Registry :=
  let kwargs : ContainerRecord :=
    { id := clsName
      title := title
      description := pyOrStr description clsDoc
      icon := icon
      category := category
      functions := []
      schema := schema }
  Toolkit.register_container tools clsName kwargs

/-- What `tool_func` reads off the decorated function: its `__name__`, its
`__qualname__` — embedded already split on dots, as the source only ever
uses `func.__qualname__.split(".")` — the parsed docstring parameter
entries, and its signature. -/
structure FuncMeta where
  name : String
  qualname : List String
  docParams : List (String × String)
  params : List PyParam
deriving Repr

/-- The expression `func.__qualname__.split(".")[0]` of `tool_func`: the
first component of the dot-split qualified name, i.e. the name of the
immediately enclosing class. -/
def qualnameHead (q : List String) : String := q.headD ""

/-- The decoration-time effect of `tool_func` (`src/core/tools/toolkit.py`):
builds the `args` descriptor list from the signature (which the source then
leaves unused), builds the operation `kwargs` with a literal empty
`parameters` dict and fixed `returns` placeholder, resolves the owning
container name as `func.__qualname__.split(".")[0]`, and calls
`Toolkit.register` with `tool_cls` set — any `ValueError` from registration
propagates to the caller, there is no handler. -/
def tool_func_decorate (schema : Option PyVal) (title desc : Option String)
    (f : FuncMeta) (tools : Registry) : Except RegError Registry :=
  let args := describeParams f.docParams f.params
  let kwargs : OpRecord :=
    { id := f.name
      title := title
      description := desc
      parameters := []
      returns := (",", "")
      schema := schema
      enabled := true
      llm_tool := [] }
  let tool_cls := qualnameHead f.qualname
  let _ := args
  Toolkit.register_op tools f.name kwargs tool_cls

/-- The configuration value the call-time `wrapper` of `tool_func` injects:
`self.configuration.get("functions", literal default).get("config", empty
dict)`. `Option.none` embeds the `AttributeError` Python would raise when
the stored `functions` value is not a dict. -/
def injectedConfig (conf : PyDict) : Option PyVal :=
  PyVal.get (PyDict.get conf "functions"
    (PyVal.dict [("config", PyVal.str "")])) "config" (PyVal.dict [])

/-- The call-time `wrapper` produced by `tool_func`, split around
`injectedConfig`: `kwargs["_config"] = self.configuration.get(...).get(...)`
then `return func(self, *args, **kwargs)`. The body `func` is modelled as
any function of the receiver configuration, the positional arguments and
the keyword arguments; its result type is abstract, so the wrapper can
neither inspect nor translate what the body returns or raises. -/
def wrapper {ρ : Type} (func : PyDict → List PyVal → PyDict → ρ)
    (conf : PyDict) (args : List PyVal) (kwargs : PyDict) : Except Unit ρ :=
  match injectedConfig conf with
  | Option.none => Except.error ()
  | Option.some v => Except.ok (func conf args (setStr kwargs "_config" v))

example :
    injectedConfig [("functions", PyVal.dict [])] =
      Option.some (PyVal.dict []) := by rfl
example : injectedConfig [] = Option.some (PyVal.str "") := by rfl

/-- One execution of the `try` body of `SerpApiTool.search_google` or
`SerpApiTool.search_youtube` (`src/app/tools/serpapi.py`): either the import
and the backend call succeed and yield the response dict, or loading the
`serpapi` module fails (`ImportError`), or some other exception with a message is
raised. -/
inductive BackendAttempt : Type where
  | ok : PyDict → BackendAttempt
  | importError : BackendAttempt
  | exc : String → BackendAttempt
deriving Repr

/-- `SerpApiTool.search_google` (`src/app/tools/serpapi.py`), parametrised by
what each successive execution of its `try` body does (`attempt 0` is the
current call, `attempt (i+1)` feeds the recursive retry) and by recursion
fuel (the Python recursion limit). On success it returns
`results.get("organic_results", [])`; on `ImportError` it installs the
backend package and re-invokes itself, but the value of the recursive call is
discarded — the branch has no `return` statement, so the function falls off
the end and returns Python `None`, embedded as `Option.none`; on any other
exception it returns the error dict. -/
def search_google : Nat → (Nat → BackendAttempt) → Option PyVal
  | 0, _ => Option.none
  | fuel + 1, attempt =>
      match attempt 0 with
      | BackendAttempt.ok results =>
          Option.some (PyDict.get results "organic_results" (PyVal.list []))
      | BackendAttempt.importError =>
          let _ := search_google fuel (fun i => attempt (i + 1))
          Option.none
      | BackendAttempt.exc msg =>
          Option.some (PyVal.dict [("error", PyVal.str msg)])

/-- `SerpApiTool.search_youtube` (`src/app/tools/serpapi.py`), same shape as
`search_google` but returning `results.get("videos", [])` on success; the
`ImportError` branch likewise discards the value of the retry and returns `None`. -/
def search_youtube : Nat → (Nat → BackendAttempt) → Option PyVal
  | 0, _ => Option.none
  | fuel + 1, attempt =>
      match attempt 0 with
      | BackendAttempt.ok results =>
          Option.some (PyDict.get results "videos" (PyVal.list []))
      | BackendAttempt.importError =>
          let _ := search_youtube fuel (fun i => attempt (i + 1))
          Option.none
      | BackendAttempt.exc msg =>
          Option.some (PyVal.dict [("error", PyVal.str msg)])

/-- The signature metadata of `SerpApiTool.search_google` as declared in
`src/app/tools/serpapi.py`: `def search_google(self, query: str, _config:
dict)` with qualified name `SerpApiTool.search_google` and documented
parameters `query` and `_config`. -/
def search_google_meta : FuncMeta :=
  { name := "search_google"
    qualname := ["SerpApiTool", "search_google"]
    docParams :=
      [("query", "The search query string."),
       ("_config", "Configuration dictionary containing parameters for the search such as the number of results.")]
    params :=
      [⟨"self", Option.none, Option.none⟩,
       ⟨"query", Option.some "str", Option.none⟩,
       ⟨"_config", Option.some "dict", Option.none⟩] }

/-- The end-to-end scenario of the spec: container `C` with operation
`op(self, query, _config)` whose docstring documents `query`. -/
def op_meta : FuncMeta :=
  { name := "op"
    qualname := ["C", "op"]
    docParams := [("query", "the search text")]
    params :=
      [⟨"self", Option.none, Option.none⟩,
       ⟨"query", Option.some "str", Option.none⟩,
       ⟨"_config", Option.some "dict", Option.none⟩] }

/-- Whether the value stored under `"functions"` in a configuration dict is
itself a dict (or absent): exactly the configurations on which the `get`
chain of the wrapper does not raise `AttributeError`. -/
def functionsIsDict (conf : PyDict) : Bool :=
  match lookupStr conf "functions" with
  | Option.none => true
  | Option.some (PyVal.dict _) => true
  | Option.some _ => false

/-- The full list of type names recognised by `_get_json_type_for_py_type`;
every other argument falls through to `"unknown"`. -/
def recognizedTypeNames : List String :=
  ["int", "float", "complex", "Decimal", "str", "string", "bool", "boolean",
   "NoneType", "None", "list", "tuple", "set", "frozenset", "dict", "mapping"]

lemma lookupStr_map_over_ne {α : Type} (d : List (String × α))
    (k k' : String) (v : α) (h : k' ≠ k) :
    lookupStr (d.map (fun e => if e.1 = k then (k, v) else e)) k' =
      lookupStr d k' := by
  induction d with
  | nil => rfl
  | cons e rest ih =>
      by_cases he : e.1 = k
      · simp [lookupStr, he, Ne.symm h, ih]
      · simp [lookupStr, he, ih]

lemma lookupStr_map_over_self {α : Type} (d : List (String × α))
    (k : String) (v : α) (h : (lookupStr d k).isSome = true) :
    lookupStr (d.map (fun e => if e.1 = k then (k, v) else e)) k =
      Option.some v := by
  induction d with
  | nil => simp [lookupStr] at h
  | cons e rest ih =>
      by_cases he : e.1 = k
      · simp [lookupStr, he]
      · simp only [lookupStr, he, if_false] at h
        simp [lookupStr, he, ih h]

lemma lookupStr_append_single_ne {α : Type} (d : List (String × α))
    (k k' : String) (v : α) (h : k' ≠ k) :
    lookupStr (d ++ [(k, v)]) k' = lookupStr d k' := by
  induction d with
  | nil => simp [lookupStr, Ne.symm h]
  | cons e rest ih =>
      by_cases he : e.1 = k'
      · simp [lookupStr, he]
      · simp [lookupStr, he, ih]

lemma lookupStr_append_single_self {α : Type} (d : List (String × α))
    (k : String) (v : α) :
    lookupStr (d ++ [(k, v)]) k = Option.some ((lookupStr d k).getD v) := by
  induction d with
  | nil => simp [lookupStr]
  | cons e rest ih =>
      by_cases he : e.1 = k
      · simp [lookupStr, he]
      · simp [lookupStr, he, ih]

lemma lookupStr_setStr_self {α : Type} (d : List (String × α)) (k : String)
    (v : α) : lookupStr (setStr d k v) k = Option.some v := by
  unfold setStr
  cases hx : lookupStr d k with
  | none =>
      simp only [hx, Option.isSome_none, Bool.false_eq_true, if_false]
      rw [lookupStr_append_single_self, hx]
      rfl
  | some w =>
      simp only [hx, Option.isSome_some, if_true]
      exact lookupStr_map_over_self d k v (by rw [hx]; rfl)

lemma lookupStr_setStr_ne {α : Type} (d : List (String × α)) (k k' : String)
    (v : α) (h : k' ≠ k) : lookupStr (setStr d k v) k' = lookupStr d k' := by
  unfold setStr
  cases hx : lookupStr d k with
  | none =>
      simp only [hx, Option.isSome_none, Bool.false_eq_true, if_false]
      exact lookupStr_append_single_ne d k k' v h
  | some w =>
      simp only [hx, Option.isSome_some, if_true]
      exact lookupStr_map_over_ne d k k' v h

/-- Claim C1. The claim states that decorating an operation before its
container is declared does not raise, the record being held pending and
attached when the container registers. The code has no pending area (the
fix is commented out in the source): `Toolkit.register` raises `ValueError`
when the container is not yet registered, so decorating
`SerpApiTool.search_google` against a registry that does not yet hold
`SerpApiTool` — the standard decorator evaluation order, method decorators
running before the class decorator — fails at decoration time, for every
schema, title and description argument. -/
theorem tool_func_before_container_raises (schema : Option PyVal)
    (title desc : Option String) :
    tool_func_decorate schema title desc search_google_meta [] =
      Except.error (RegError.unknownContainer "SerpApiTool") := rfl

/-- Claim C2. The claim states that the stored OperationRecord has a
descriptor for each declared parameter with the documented description. In
the code, `tool_func` computes the descriptor list (`args`) but stores a
literal empty `parameters` dict: after registering container `C` and then
operation `op`, the record found by registry lookup of `("C", "op")` has an
empty `parameters` mapping, while the discarded introspection result did
contain the `query` descriptor with the documented text. -/
theorem registered_parameters_empty :
    (tool_func_decorate Option.none Option.none Option.none op_meta
        (tool Option.none Option.none Option.none Option.none Option.none
          "C" Option.none [])).map
        (fun tools =>
          (Toolkit.tool_lookup_fn tools "C" "op").map
            (fun r => r.parameters)) =
      Except.ok (Option.some ([] : List (String × ParamDescriptor))) ∧
    (describeParams op_meta.docParams op_meta.params).map
        (fun d => (d.name, d.description)) =
      [("query", "the search text")] := by
  exact ⟨rfl, rfl⟩

/-- Claim C3, counterexample. The claim states that when the instance
configuration has no `functions` entry for the operation name the injected
value is an empty configuration object, the value being looked up by the
operation name. Take the configuration whose `functions` region is
`\x7b"config": \x7b"a": 1\x7d\x7d`: it has no entry for an operation named
`op`, yet the injected value is `\x7b"a": 1\x7d`, not the empty dict — the
wrapper looks up the fixed key `"config"`, never the operation name. -/
theorem config_lookup_ignores_op_name :
    lookupStr ([("config", PyVal.dict [("a", PyVal.int 1)])] : PyDict)
      "op" = Option.none ∧
    injectedConfig
        [("functions",
          PyVal.dict [("config", PyVal.dict [("a", PyVal.int 1)])])] =
      Option.some (PyVal.dict [("a", PyVal.int 1)]) ∧
    PyVal.dict [("a", PyVal.int 1)] ≠ PyVal.dict [] := by
  refine ⟨rfl, rfl, ?_⟩
  simp

/-- Claim C3, amended. Invoking the wrapped operation does not fail at the
configuration lookup; the injected value is obtained from the `functions`
region under the fixed key `"config"` (defaulting to the empty dict when
that key is absent), independently of the operation name — `injectedConfig`
does not even take the operation name as an argument; and when the
configuration has no `functions` region at all, the injected value is the
empty string coming from the literal default. -/
theorem injected_config_fixed_key (conf : PyDict) (fs : PyDict)
    (h : lookupStr conf "functions" = Option.some (PyVal.dict fs)) :
    injectedConfig conf =
      Option.some (PyDict.get fs "config" (PyVal.dict [])) ∧
    injectedConfig [] = Option.some (PyVal.str "") := by
  refine ⟨?_, rfl⟩
  unfold injectedConfig PyDict.get
  rw [h]
  rfl

theorem injected_config_fixed_key_witness :
    lookupStr ([("functions", PyVal.dict [("config", PyVal.int 7)])] : PyDict)
        "functions" =
      Option.some (PyVal.dict [("config", PyVal.int 7)]) ∧
    (injectedConfig [("functions", PyVal.dict [("config", PyVal.int 7)])] =
      Option.some (PyDict.get [("config", PyVal.int 7)] "config"
        (PyVal.dict [])) ∧
    injectedConfig [] = Option.some (PyVal.str "")) :=
  ⟨rfl, injected_config_fixed_key
    [("functions", PyVal.dict [("config", PyVal.int 7)])]
    [("config", PyVal.int 7)] rfl⟩

/-- Claim C4. For every body, configuration whose `functions` region (if
present) is a dict, positional arguments and keyword arguments: the wrapper
returns exactly the body applied to the same receiver, the same positional
arguments, and the keyword arguments extended with the injected value under
`_config`; every keyword other than `_config` reaches the body unchanged.
The result type of the body is abstract, so the wrapper returns whatever
the body produces — value or raised exception — without translation. -/
theorem wrapper_forwards {ρ : Type} (func : PyDict → List PyVal → PyDict → ρ)
    (conf : PyDict) (args : List PyVal) (kwargs : PyDict)
    (h : functionsIsDict conf = true) :
    ∃ v, injectedConfig conf = Option.some v ∧
      wrapper func conf args kwargs =
        Except.ok (func conf args (setStr kwargs "_config" v)) ∧
      lookupStr (setStr kwargs "_config" v) "_config" = Option.some v ∧
      ∀ k, k ≠ "_config" →
        lookupStr (setStr kwargs "_config" v) k = lookupStr kwargs k := by
  have hv : ∃ v, injectedConfig conf = Option.some v := by
    unfold functionsIsDict at h
    unfold injectedConfig PyDict.get
    cases hx : lookupStr conf "functions" with
    | none => exact ⟨PyVal.str "", rfl⟩
    | some w =>
        rw [hx] at h
        cases w with
        | dict es => exact ⟨PyDict.get es "config" (PyVal.dict []), rfl⟩
        | none => simp at h
        | bool b => simp at h
        | int n => simp at h
        | str s => simp at h
        | list xs => simp at h
  obtain ⟨v, hv⟩ := hv
  refine ⟨v, hv, ?_, lookupStr_setStr_self kwargs "_config" v,
    fun k hk => lookupStr_setStr_ne kwargs "_config" k v hk⟩
  unfold wrapper
  rw [hv]

theorem wrapper_forwards_witness :
    functionsIsDict [] = true ∧
    ∃ v, injectedConfig [] = Option.some v ∧
      wrapper (fun _ _ _ => (0 : Nat)) [] [] [] =
        Except.ok ((fun (_ : PyDict) (_ : List PyVal) (_ : PyDict) =>
          (0 : Nat)) [] [] (setStr [] "_config" v)) ∧
      lookupStr (setStr ([] : PyDict) "_config" v) "_config" =
        Option.some v ∧
      ∀ k, k ≠ "_config" →
        lookupStr (setStr ([] : PyDict) "_config" v) k =
          lookupStr ([] : PyDict) k :=
  ⟨rfl, wrapper_forwards (fun _ _ _ => (0 : Nat)) [] [] [] rfl⟩

/-- Claim C5. When the owning container is already registered and an
operation of the same name is already attached to it, decorating another
operation with that name fails with the duplicate-registration error, and
`tool_func` has no handler, so the error reaches the caller at decoration
time. -/
theorem tool_func_duplicate_surfaced (schema : Option PyVal)
    (title desc : Option String) (fm : FuncMeta) (tools : Registry)
    (d : ContainerRecord)
    (hc : lookupStr tools (qualnameHead fm.qualname) = Option.some d)
    (hdup : (lookupStr d.functions fm.name).isSome = true) :
    tool_func_decorate schema title desc fm tools =
      Except.error (RegError.duplicateOperation fm.name
        (qualnameHead fm.qualname)) := by
  simp [tool_func_decorate, Toolkit.register_op, hc, hdup]

theorem tool_func_duplicate_surfaced_witness :
    lookupStr ([("C",
        (⟨"C", Option.none, Option.none, Option.none, Option.none,
          [("op", ⟨"op", Option.none, Option.none, [], (",", ""),
            Option.none, true, []⟩)], Option.none⟩ : ContainerRecord))] :
        Registry)
      (qualnameHead op_meta.qualname) =
      Option.some (⟨"C", Option.none, Option.none, Option.none, Option.none,
        [("op", ⟨"op", Option.none, Option.none, [], (",", ""),
          Option.none, true, []⟩)], Option.none⟩ : ContainerRecord) ∧
    (lookupStr
        (⟨"C", Option.none, Option.none, Option.none, Option.none,
          [("op", ⟨"op", Option.none, Option.none, [], (",", ""),
            Option.none, true, []⟩)], Option.none⟩ :
          ContainerRecord).functions op_meta.name).isSome = true ∧
    tool_func_decorate Option.none Option.none Option.none op_meta
        [("C",
          (⟨"C", Option.none, Option.none, Option.none, Option.none,
            [("op", ⟨"op", Option.none, Option.none, [], (",", ""),
              Option.none, true, []⟩)], Option.none⟩ : ContainerRecord))] =
      Except.error (RegError.duplicateOperation op_meta.name
        (qualnameHead op_meta.qualname)) :=
  ⟨rfl, rfl,
    tool_func_duplicate_surfaced Option.none Option.none Option.none op_meta
      _ _ rfl rfl⟩

/-- Claim C6. For the descriptor the Signature Introspector builds for a
kept parameter: `optional` is true exactly when a default value is
declared, and the `default` field carries the declared value when there is
one and Python `None` otherwise. -/
theorem describeParam_optional_default (docs : List (String × String))
    (p : PyParam) :
    ((describeParam docs p).optional = true ↔ p.default ≠ Option.none) ∧
    (describeParam docs p).default = p.default.getD PyVal.none := by
  refine ⟨?_, rfl⟩
  cases hd : p.default <;> simp [describeParam, hd]

/-- Claim C7, counterexample. The claim states that every declared type
name other than int, float, str, bool, list, tuple, set and dict maps to
`unknown`; but `complex` maps to `number` and `None` maps to `null`. -/
theorem json_type_other_not_unknown :
    _get_json_type_for_py_type "complex" = "number" ∧
    ¬ _get_json_type_for_py_type "complex" = "unknown" ∧
    _get_json_type_for_py_type "None" = "null" ∧
    ¬ _get_json_type_for_py_type "None" = "unknown" := by decide

/-- Claim C7, amended. The mapping recognises int, float, complex and
Decimal as `number`; str and string as `string`; bool and boolean as
`boolean`; NoneType and None as `null`; list, tuple, set and frozenset as
`array`; dict and mapping as `object`; every other declared type name maps
to `unknown`, and the function is total, never raising. -/
theorem json_type_mapping_amended (s : String)
    (h : s ∉ recognizedTypeNames) :
    _get_json_type_for_py_type s = "unknown" ∧
    (_get_json_type_for_py_type "int" = "number" ∧
     _get_json_type_for_py_type "float" = "number" ∧
     _get_json_type_for_py_type "complex" = "number" ∧
     _get_json_type_for_py_type "Decimal" = "number" ∧
     _get_json_type_for_py_type "str" = "string" ∧
     _get_json_type_for_py_type "string" = "string" ∧
     _get_json_type_for_py_type "bool" = "boolean" ∧
     _get_json_type_for_py_type "boolean" = "boolean" ∧
     _get_json_type_for_py_type "NoneType" = "null" ∧
     _get_json_type_for_py_type "None" = "null" ∧
     _get_json_type_for_py_type "list" = "array" ∧
     _get_json_type_for_py_type "tuple" = "array" ∧
     _get_json_type_for_py_type "set" = "array" ∧
     _get_json_type_for_py_type "frozenset" = "array" ∧
     _get_json_type_for_py_type "dict" = "object" ∧
     _get_json_type_for_py_type "mapping" = "object") := by
  refine ⟨?_, by decide⟩
  simp only [recognizedTypeNames, List.mem_cons, List.mem_singleton,
    not_or] at h
  obtain ⟨h1, h2, h3, h4, h5, h6, h7, h8, h9, h10, h11, h12, h13, h14,
    h15, h16⟩ := h
  simp [_get_json_type_for_py_type, h1, h2, h3, h4, h5, h6, h7, h8, h9,
    h10, h11, h12, h13, h14, h15, h16]

theorem json_type_mapping_amended_witness :
    ("Foo" ∉ recognizedTypeNames) ∧
    (_get_json_type_for_py_type "Foo" = "unknown" ∧
    (_get_json_type_for_py_type "int" = "number" ∧
     _get_json_type_for_py_type "float" = "number" ∧
     _get_json_type_for_py_type "complex" = "number" ∧
     _get_json_type_for_py_type "Decimal" = "number" ∧
     _get_json_type_for_py_type "str" = "string" ∧
     _get_json_type_for_py_type "string" = "string" ∧
     _get_json_type_for_py_type "bool" = "boolean" ∧
     _get_json_type_for_py_type "boolean" = "boolean" ∧
     _get_json_type_for_py_type "NoneType" = "null" ∧
     _get_json_type_for_py_type "None" = "null" ∧
     _get_json_type_for_py_type "list" = "array" ∧
     _get_json_type_for_py_type "tuple" = "array" ∧
     _get_json_type_for_py_type "set" = "array" ∧
     _get_json_type_for_py_type "frozenset" = "array" ∧
     _get_json_type_for_py_type "dict" = "object" ∧
     _get_json_type_for_py_type "mapping" = "object")) :=
  ⟨by decide, json_type_mapping_amended "Foo" (by decide)⟩

/-- Claim C8, counterexample. The claim states that a parameter with no
type annotation is assigned the TypeCategory `null`; in the code the
missing annotation is replaced by the sentinel `"any"`, which the type
mapping sends to `unknown`, not `null`. -/
theorem unannotated_param_not_null :
    (describeParam [] ⟨"q", Option.none, Option.none⟩).type = "unknown" ∧
    ¬ (describeParam [] ⟨"q", Option.none, Option.none⟩).type = "null" := by
  exact ⟨rfl, by decide⟩

/-- Claim C8, amended. For every parameter declared with no type annotation
at all, the Signature Introspector assigns the TypeCategory `unknown` to
its descriptor, whatever its name, default and documentation. -/
theorem unannotated_param_unknown (docs : List (String × String))
    (nm : String) (dflt : Option PyVal) :
    (describeParam docs ⟨nm, Option.none, dflt⟩).type = "unknown" := rfl

/-- Claim C9. The claim states that on any backend failure, including the
backend library not being available, the operations return the single-key
error dict. On `ImportError` the code installs the package and re-invokes
itself but discards the value of the recursive call — the branch has no
`return` — so both operations return Python `None` in that case, even when
the retry would have succeeded; only non-import exceptions produce the
error dict. -/
theorem serp_import_error_returns_none :
    search_google 5 (fun _ => BackendAttempt.importError) = Option.none ∧
    search_youtube 5 (fun _ => BackendAttempt.importError) = Option.none ∧
    search_google 5 (fun i => if i = 0 then BackendAttempt.importError
      else BackendAttempt.ok
        [("organic_results", PyVal.list [PyVal.str "r"])]) = Option.none ∧
    search_google 5 (fun _ => BackendAttempt.exc "boom") =
      Option.some (PyVal.dict [("error", PyVal.str "boom")]) ∧
    search_youtube 5 (fun _ => BackendAttempt.exc "boom") =
      Option.some (PyVal.dict [("error", PyVal.str "boom")]) := by
  exact ⟨rfl, rfl, rfl, rfl, rfl⟩

/-- Claim C10. Constructing a `Toolkit` with a falsy configuration — Python
`None` or the empty dict — stores the default structure with empty `config`
and `functions` regions and an empty `enable` list, while every non-empty
dict is stored unchanged. -/
theorem toolkit_init_default (d : PyDict) (h : d ≠ []) :
    Toolkit.init Option.none =
      [("config", PyVal.dict []), ("functions", PyVal.dict []),
       ("enable", PyVal.list [])] ∧
    Toolkit.init (Option.some []) = Toolkit.default_configuration ∧
    Toolkit.init (Option.some d) = d := by
  refine ⟨rfl, rfl, ?_⟩
  cases d with
  | nil => exact absurd rfl h
  | cons e t => rfl

theorem toolkit_init_default_witness :
    ([("a", PyVal.int 1)] : PyDict) ≠ [] ∧
    (Toolkit.init Option.none =
      [("config", PyVal.dict []), ("functions", PyVal.dict []),
       ("enable", PyVal.list [])] ∧
    Toolkit.init (Option.some []) = Toolkit.default_configuration ∧
    Toolkit.init (Option.some [("a", PyVal.int 1)]) =
      [("a", PyVal.int 1)]) :=
  ⟨by simp, toolkit_init_default [("a", PyVal.int 1)] (by simp)⟩
